import Mathlib

/-!
Verification development for the vault-mgmt upgrade orchestrator.

The definitions below are a shallow embedding of the Rust sources:
`src/helpers.rs` (label predicates, flavor), `src/version.rs` (version
extraction), `src/wait.rs` (watch conditions), `src/status.rs` (seal
status and raft configuration), `src/step_down.rs`, `src/unseal.rs`,
and `src/upgrade.rs` (per-member procedure and cluster driver).
Effectful operations are embedded as functions over an explicit
environment that records each effect's outcome, and they additionally
return the trace of effects performed.
-/

deriving instance DecidableEq for Except

namespace VaultMgmt

/-! ## Kubernetes data model (the fields the program reads) -/

/-- A label mapping (string to string), modelled as an association list;
lookup returns the first binding of the key. -/
abbrev Labels := List (String × String)

/-- Lookup in a label mapping (`BTreeMap::get` in the source). -/
def labelsGet (ls : Labels) (k : String) : Option String :=
  (ls.find? (fun p => p.1 == k)).map (·.2)

structure Container where
  name : String
  image : Option String
  deriving DecidableEq, Repr

structure PodSpec where
  containers : List Container
  deriving DecidableEq, Repr

structure PodCondition where
  type_ : String
  status : String
  deriving DecidableEq, Repr

structure PodStatus where
  conditions : Option (List PodCondition)
  deriving DecidableEq, Repr

structure ObjectMeta where
  name : Option String
  labels : Option Labels
  deriving DecidableEq, Repr

structure Pod where
  metadata : ObjectMeta
  spec : Option PodSpec
  status : Option PodStatus
  deriving DecidableEq, Repr

structure PodTemplateSpec where
  spec : Option PodSpec
  deriving DecidableEq, Repr

structure StatefulSetSpec where
  template : PodTemplateSpec
  deriving DecidableEq, Repr

structure StatefulSet where
  metadata : ObjectMeta
  spec : Option StatefulSetSpec
  deriving DecidableEq, Repr

/-! ## Version extraction (`src/version.rs`) -/

structure VaultVersion where
  version : String
  deriving DecidableEq, Repr

/-- Model of Rust `str::split(sep)` over the character list of a string:
`"a:b:c".split(':')` yields `["a", "b", "c"]`, `"".split(':')` yields
`[""]`, and a trailing separator yields a trailing empty field. -/
def rustSplit (sep : Char) : List Char → List (List Char)
  | [] => [[]]
  | c :: cs =>
    if c = sep then [] :: rustSplit sep cs
    else
      match rustSplit sep cs with
      | [] => [[c]]
      | f :: r => (c :: f) :: r

/-- `image.split(':').nth(1)` with the `image does not have a tag` error,
as in both `TryFrom` impls of `src/version.rs`. -/
def imageTag (image : String) : Except String String :=
  match (rustSplit ':' image.data).get? 1 with
  | none => .error "image does not have a tag"
  | some tag => .ok (String.mk tag)

/-- `TryFrom<&Pod> for VaultVersion` (`src/version.rs` lines 53-79). -/
def VaultVersion.tryFromPod (pod : Pod) : Except String VaultVersion :=
  match pod.spec with
  | none => .error "pod does not have a spec"
  | some spec =>
    match spec.containers.head? with
    | none => .error "pod does not have a container"
    | some container =>
      match container.image with
      | none => .error "container does not have an image"
      | some image => (imageTag image).map (fun v => ⟨v⟩)

/-- `TryFrom<&StatefulSet> for VaultVersion` (`src/version.rs` lines 21-50). -/
def VaultVersion.tryFromStatefulSet (sts : StatefulSet) : Except String VaultVersion :=
  match sts.spec with
  | none => .error "statefulset does not have a spec"
  | some spec =>
    match spec.template.spec with
    | none => .error "statefulset does not have a pod spec"
    | some podSpec =>
      match podSpec.containers.head? with
      | none => .error "statefulset does not have a container"
      | some container =>
        match container.image with
        | none => .error "container does not have an image"
        | some image => (imageTag image).map (fun v => ⟨v⟩)

/-! ## Label predicates and flavor (`src/helpers.rs`) -/

/-- `is_sealed` (`src/helpers.rs` lines 13-25): reads the
`{flavor}-sealed` label; absent labels, absent key and unrecognized
values are all errors. -/
def is_sealed (pod : Pod) (flavor : String) : Except String Bool :=
  match pod.metadata.labels with
  | none => .error "pod does not have labels"
  | some labels =>
    match labelsGet labels (flavor ++ "-sealed") with
    | some x =>
      if x = "true" then .ok true
      else if x = "false" then .ok false
      else .error ("pod does not have a " ++ flavor ++ "-sealed label")
    | none => .error ("pod does not have a " ++ flavor ++ "-sealed label")

/-- `is_active` (`src/helpers.rs` lines 29-41). -/
def is_active (pod : Pod) (flavor : String) : Except String Bool :=
  match pod.metadata.labels with
  | none => .error "pod does not have labels"
  | some labels =>
    match labelsGet labels (flavor ++ "-active") with
    | some x =>
      if x = "true" then .ok true
      else if x = "false" then .ok false
      else .error ("pod does not have a " ++ flavor ++ "-active label")
    | none => .error ("pod does not have a " ++ flavor ++ "-active label")

inductive Flavor where
  | OpenBao
  | Vault
  deriving DecidableEq, Repr

/-- `Display for Flavor` (`src/helpers.rs`). -/
def Flavor.render : Flavor → String
  | .OpenBao => "openbao"
  | .Vault => "vault"

/-- Model of Rust `str::to_lowercase` as per-character lowercasing
(they agree on the ASCII flavor names this program matches against). -/
def rustToLowercase (s : String) : String :=
  ⟨s.data.map Char.toLower⟩

/-- `FromStr for Flavor` (`src/helpers.rs` lines 67-77): matches on the
lowercased input. -/
def Flavor.fromStr (s : String) : Except String Flavor :=
  if rustToLowercase s = "openbao" then .ok .OpenBao
  else if rustToLowercase s = "vault" then .ok .Vault
  else .error ("invalid flavor: " ++ s)

/-! ## Watch conditions (`src/wait.rs`) -/

/-- `is_pod_ready` (`src/wait.rs` lines 66-79). -/
def is_pod_ready (obj : Option Pod) : Bool :=
  match obj with
  | none => false
  | some pod =>
    match pod.status with
    | none => false
    | some status =>
      match status.conditions with
      | none => false
      | some conditions =>
        conditions.any (fun c => c.type_ == "Ready" && c.status == "True")

/-- `is_pod_sealed` (`src/wait.rs` lines 105-116): true iff the
`vault-sealed` label is present with value `"true"`. -/
def is_pod_sealed (obj : Option Pod) : Bool :=
  match obj with
  | none => false
  | some pod =>
    match pod.metadata.labels with
    | none => false
    | some labels =>
      match labelsGet labels "vault-sealed" with
      | none => false
      | some sealed => sealed == "true"

/-- `is_pod_unsealed` (`src/wait.rs` lines 98-100): `Condition::not` of
`is_pod_sealed`. -/
def is_pod_unsealed (obj : Option Pod) : Bool :=
  !(is_pod_sealed obj)

/-- `is_pod_active` (`src/wait.rs` lines 121-132). -/
def is_pod_active (obj : Option Pod) : Bool :=
  match obj with
  | none => false
  | some pod =>
    match pod.metadata.labels with
    | none => false
    | some labels =>
      match labelsGet labels "vault-active" with
      | none => false
      | some active => active == "true"

/-- `is_pod_standby` (`src/wait.rs` lines 137-139): `Condition::not` of
`is_pod_active`. -/
def is_pod_standby (obj : Option Pod) : Bool :=
  !(is_pod_active obj)

/-! ## Seal status and raft configuration (`src/status.rs`) -/

structure PodSealStatus where
  type_ : String
  initialized : Bool
  sealed : Bool
  t : Nat
  n : Nat
  progress : Nat
  nonce : String
  version : String
  build_date : String
  migration : Bool
  recovery_seal : Bool
  storage_type : String
  ha_enabled : Option Bool
  cluster_name : Option String
  cluster_id : Option String
  active_time : Option String
  leader_address : Option String
  leader_cluster_address : Option String
  raft_committed_index : Option Nat
  raft_applied_index : Option Nat
  deriving DecidableEq, Repr

/-- `is_seal_status_initialized` (`src/status.rs` lines 79-86). -/
def is_seal_status_initialized (obj : Option PodSealStatus) : Bool :=
  match obj with
  | none => false
  | some status => status.initialized

/-- `is_seal_status_sealed` (`src/status.rs` lines 89-96). -/
def is_seal_status_sealed (obj : Option PodSealStatus) : Bool :=
  match obj with
  | none => false
  | some status => status.sealed

structure RaftConfigurationServer where
  node_id : String
  address : String
  leader : Bool
  protocol_version : String
  voter : Bool
  deriving DecidableEq, Repr

structure RaftConfigurationDataConfig where
  servers : List RaftConfigurationServer
  index : Nat
  deriving DecidableEq, Repr

structure RaftConfigurationData where
  config : RaftConfigurationDataConfig
  deriving DecidableEq, Repr

structure RaftConfiguration where
  request_id : String
  lease_id : String
  renewable : Bool
  lease_duration : Nat
  data : RaftConfigurationData
  deriving DecidableEq, Repr

/-- `raft_configuration_any_leader` (`src/status.rs` lines 183-191). -/
def raft_configuration_any_leader (obj : Option RaftConfiguration) : Bool :=
  match obj with
  | none => false
  | some config => config.data.config.servers.any (fun s => s.leader)

/-- `raft_configuration_all_voters` (`src/status.rs` lines 193-201). -/
def raft_configuration_all_voters (obj : Option RaftConfiguration) : Bool :=
  match obj with
  | none => false
  | some config => config.data.config.servers.all (fun s => s.voter)

/-! ## HTTP request shapes (`src/http.rs`) -/

inductive HttpMethod where
  | GET
  | PUT
  | POST
  deriving DecidableEq, Repr

/-- Request bodies the embedded operations send: empty, or the JSON
unseal body built in `src/unseal.rs` from a key
(`{key, reset: false, migrate: false}`). -/
inductive HttpBody where
  | empty
  | unsealKey (key : String) (reset : Bool) (migrate : Bool)
  deriving DecidableEq, Repr

structure HttpReq where
  method : HttpMethod
  uri : String
  headers : List (String × String)
  body : HttpBody
  deriving DecidableEq, Repr

/-- A fully buffered response: status code and body text. -/
structure HttpResp where
  status : Nat
  body : String
  deriving DecidableEq, Repr

/-- `vault_request()` headers (`src/http.rs` lines 126-130). -/
def vaultRequestHeaders : List (String × String) :=
  [("Host", "127.0.0.1"), ("x-Vault-Request", "true")]

/-- `vault_request_with_token()` headers (`src/http.rs` lines 132-134). -/
def vaultRequestWithTokenHeaders (token : String) : List (String × String) :=
  vaultRequestHeaders ++ [("X-Vault-Token", token)]

/-- `step_down_request` (`src/http.rs` lines 189-198). -/
def step_down_request (token : String) : HttpReq :=
  { method := .PUT
    uri := "/v1/sys/step-down"
    headers := vaultRequestWithTokenHeaders token
    body := .empty }

/-- `unseal_request` (`src/http.rs` lines 144-150) with the body built at
the call site in `src/unseal.rs` lines 58-64. -/
def unseal_request (key : String) : HttpReq :=
  { method := .PUT
    uri := "/v1/sys/unseal"
    headers := vaultRequestHeaders
    body := .unsealKey key false false }

/-- `StatusCode::is_success`: 200..=299. -/
def isSuccessStatus (st : Nat) : Bool :=
  200 ≤ st && st ≤ 299

/-- `StatusCode::is_redirection`: 300..=399. -/
def isRedirectionStatus (st : Nat) : Bool :=
  300 ≤ st && st ≤ 399

/-! ## Step-down (`src/step_down.rs`) -/

/-- `StepDown::step_down` (`src/step_down.rs` lines 19-31): sends one
step-down request and succeeds only on 204 No Content; any other status
yields an error carrying the response body. Returns the list of
requests sent alongside the outcome. -/
def stepDown (token : String) (resp : HttpResp) :
    List HttpReq × Except String Unit :=
  ([step_down_request token],
    if resp.status = 204 then .ok ()
    else .error ("stepping-down: " ++ resp.body))

/-! ## Unseal (`src/unseal.rs`) -/

/-- One event on the member HTTP channel: a readiness await or a sent
request. -/
inductive ChanEvent where
  | ready
  | send (req : HttpReq)
  deriving DecidableEq, Repr

/-- The acceptance test of `src/unseal.rs` line 71:
`parts.status.is_success() || parts.status.is_redirection()`. -/
def goodUnsealStatus (resp : HttpResp) : Bool :=
  isSuccessStatus resp.status || isRedirectionStatus resp.status

/-- The per-key loop of `Unseal::unseal` (`src/unseal.rs` lines 55-74):
for each key await readiness, send one unseal request and consume the
next channel response; a response outside 2xx/3xx aborts with the
response body; a missing response (closed channel) is a transport
error. -/
def unsealGo : List String → List HttpResp → List ChanEvent × Except String Unit
  | [], _ => ([], .ok ())
  | key :: keys, resps =>
    match resps with
    | [] => ([.ready, .send (unseal_request key)], .error "channel closed")
    | resp :: rest =>
      if goodUnsealStatus resp then
        let (tr, r) := unsealGo keys rest
        (.ready :: .send (unseal_request key) :: tr, r)
      else
        ([.ready, .send (unseal_request key)], .error ("unsealing: " ++ resp.body))

/-- `Unseal::unseal` (`src/unseal.rs` lines 50-77): an empty key
sequence fails immediately with `no keys provided`, otherwise the keys
are submitted in order. -/
def unsealAll (keys : List String) (resps : List HttpResp) :
    List ChanEvent × Except String Unit :=
  if keys.isEmpty then ([], .error "no keys provided")
  else unsealGo keys resps

/-! ## Bounded retry (`tokio_retry::Retry` with
`ExponentialBackoff::from_millis(50).map(jitter).take(5)`,
as used in `src/upgrade.rs` lines 91-102) -/

/-- The delay (in milliseconds, before jitter) produced by the n-th
element of `ExponentialBackoff::from_millis(base)`: the iterator starts
at `base` and multiplies by `base` at each step. -/
def exponentialBackoffMillis (base n : Nat) : Nat :=
  base ^ (n + 1)

/-- `tokio_retry::Retry::spawn`: run the action once, and after each
failure consume one delay from the strategy and retry; when the
strategy is exhausted return the last error. `delaysLeft` is the number
of delays the (truncated) strategy can still yield; `i` is the index of
the current attempt. Returns the total number of attempts made together
with the final outcome. -/
def retryRun (outcome : Nat → Except String Unit) : Nat → Nat → Nat × Except String Unit
  | i, delaysLeft =>
    match outcome i with
    | .ok () => (i + 1, .ok ())
    | .error e =>
      match delaysLeft with
      | 0 => (i + 1, .error e)
      | d + 1 => retryRun outcome (i + 1) d

/-! ## Per-member upgrade procedure (`src/upgrade.rs`, `PodApi::upgrade`) -/

/-- Modelled from the spec: the `LABEL_KEY_VAULT_ACTIVE` constant is
imported by the upgrade module but its defining module is not among the
sources; per the spec's label table (`F-active=true|false` for flavor
`vault`) and the `vault-active` selectors elsewhere in the sources, its
value is `vault-active`. -/
def LABEL_KEY_VAULT_ACTIVE : String := "vault-active"

/-- `PodApi::is_current` (`src/upgrade.rs` lines 18-21). -/
def is_current (pod : Pod) (target : VaultVersion) : Except String Bool :=
  (VaultVersion.tryFromPod pod).map (fun v => v == target)

/-- The observable steps of the per-member upgrade procedure. -/
inductive UEvent where
  | openStepDownChannel
  | sendStepDown
  | awaitStandby
  | deletePod
  | awaitRunning
  | getPod
  | openAttempt (i : Nat)
  | awaitSealStatusInitialized
  | sendUnsealKeys
  | awaitUnsealed
  | awaitReady
  deriving DecidableEq, Repr

/-- Outcomes of the effectful calls made by one run of
`PodApi::upgrade`, fixed up front: the embedding replays the control
flow of the source against these outcomes. -/
structure UpgradeEnv where
  pod : Pod
  target : VaultVersion
  token : String
  should_unseal : Bool
  force_upgrade : Bool
  keys : List String
  /-- outcome of `self.http(name, VAULT_PORT)` before the step-down -/
  stepDownOpen : Except String Unit
  /-- response to `PUT /v1/sys/step-down` -/
  stepDownResp : HttpResp
  /-- outcome of `await_condition(.., is_pod_standby())` -/
  standbyWait : Except String Unit
  /-- outcome of `delete_and_finalize` -/
  deleteRes : Except String Unit
  /-- outcome of `await_condition(.., is_pod_running())` -/
  runningWait : Except String Unit
  /-- outcome of the post-restart `self.api.get(name)` -/
  getPodRes : Except String Pod
  /-- whether the i-th channel-open attempt succeeds -/
  openOk : Nat → Bool
  /-- outcome of `await_seal_status(is_seal_status_initialized())` -/
  sealInitWait : Except String Unit
  /-- responses to the unseal requests -/
  unsealResps : List HttpResp
  /-- outcome of `await_condition(.., is_pod_unsealed())` -/
  unsealedWait : Except String Unit
  /-- outcome of `await_condition(.., is_pod_ready())` -/
  readyWait : Except String Unit

/-- `src/upgrade.rs` lines 64-70: open a channel, send step-down with
the provided token, then wait for another member to take over. -/
def stepDownPhase (env : UpgradeEnv) : List UEvent × Except String Unit :=
  match env.stepDownOpen with
  | .error e => ([.openStepDownChannel], .error e)
  | .ok () =>
    match stepDown env.token env.stepDownResp with
    | (_, .error e) => ([.openStepDownChannel, .sendStepDown], .error e)
    | (_, .ok ()) =>
      match env.standbyWait with
      | .error e => ([.openStepDownChannel, .sendStepDown, .awaitStandby], .error e)
      | .ok () => ([.openStepDownChannel, .sendStepDown, .awaitStandby], .ok ())

/-- `src/upgrade.rs` lines 50-80: when the pod is outdated or the
upgrade is forced, step the pod down if its `vault-active` label is
`"true"`, then delete it and await finalization. -/
def deletePhase (env : UpgradeEnv) (name : String) : List UEvent × Except String Unit :=
  match env.pod.metadata.labels with
  | none => ([], .error "pod does not have labels")
  | some labels =>
    match labelsGet labels LABEL_KEY_VAULT_ACTIVE with
    | none => ([], .error ("pod does not have an " ++ LABEL_KEY_VAULT_ACTIVE ++ " label"))
    | some active =>
      match (if active = "true" then stepDownPhase env else ([], .ok ())) with
      | (tr, .error e) => (tr, .error e)
      | (tr, .ok ()) =>
        match env.deleteRes with
        | .error e => (tr ++ [.deletePod], .error ("deleting pod " ++ name ++ ": " ++ e))
        | .ok () => (tr ++ [.deletePod], .ok ())

/-- `src/upgrade.rs` lines 91-102: re-open the channel under
`Retry::spawn(ExponentialBackoff::from_millis(50).map(jitter).take(5))`;
exhaustion yields an error naming the member. -/
def openChannel (env : UpgradeEnv) (name : String) : List UEvent × Except String Unit :=
  match retryRun (fun i => if env.openOk i then .ok () else .error "channel open failed") 0 5 with
  | (n, .ok ()) => ((List.range n).map UEvent.openAttempt, .ok ())
  | (n, .error e) =>
    ((List.range n).map UEvent.openAttempt,
      .error ("attempting to forward http requests to " ++ name ++ ": " ++ e))

/-- `src/upgrade.rs` lines 116-125: when the refetched pod is sealed,
submit the unseal-key sequence if `should_unseal`, otherwise only log
and wait for an external unseal. -/
def unsealStepRun (env : UpgradeEnv) (name : String) (sealedNow : Bool) :
    List UEvent × Except String Unit :=
  if sealedNow then
    if env.should_unseal then
      match unsealAll env.keys env.unsealResps with
      | (_, .error e) =>
        ([UEvent.sendUnsealKeys], .error ("unsealing pod " ++ name ++ ": " ++ e))
      | (_, .ok ()) => ([UEvent.sendUnsealKeys], .ok ())
    else ([], .ok ())
  else ([], .ok ())

/-- `src/upgrade.rs` lines 104-130: poll seal-status until initialized;
then, only when the refetched pod is at the target version, unseal it
if sealed (submitting keys only when `should_unseal`), and wait for the
unsealed and ready conditions. -/
def postRestartPhase (env : UpgradeEnv) (name : String) (pod2 : Pod) :
    List UEvent × Except String Unit :=
  match env.sealInitWait with
  | .error e =>
    ([.awaitSealStatusInitialized],
      .error ("waiting for pod to have required seal status " ++ name ++ ": " ++ e))
  | .ok () =>
    match is_current pod2 env.target with
    | .error e => ([.awaitSealStatusInitialized], .error e)
    | .ok cur2 =>
      if cur2 then
        match is_sealed pod2 "vault" with
        | .error e => ([.awaitSealStatusInitialized], .error e)
        | .ok sealedNow =>
          match unsealStepRun env name sealedNow with
          | (trU, .error e) => ([.awaitSealStatusInitialized] ++ trU, .error e)
          | (trU, .ok ()) =>
            match env.unsealedWait with
            | .error e => ([.awaitSealStatusInitialized] ++ trU ++ [.awaitUnsealed], .error e)
            | .ok () =>
              match env.readyWait with
              | .error e =>
                ([.awaitSealStatusInitialized] ++ trU ++ [.awaitUnsealed, .awaitReady], .error e)
              | .ok () =>
                ([.awaitSealStatusInitialized] ++ trU ++ [.awaitUnsealed, .awaitReady], .ok ())
      else ([.awaitSealStatusInitialized], .ok ())

/-- `src/upgrade.rs` lines 82-130: the tail of the per-member
procedure, run unconditionally after the optional step-down/delete
phase (whose trace is `tr1`): wait for the pod to be running, refetch
the pod, re-open the channel with bounded retries, and run the
post-restart phase. -/
def podUpgradeTail (env : UpgradeEnv) (name : String) (tr1 : List UEvent) :
    List UEvent × Except String Unit :=
  match env.runningWait with
  | .error e =>
    (tr1 ++ [.awaitRunning],
      .error ("waiting for pod " ++ name ++ " to be running: " ++ e))
  | .ok () =>
    match env.getPodRes with
    | .error e => (tr1 ++ [.awaitRunning, .getPod], .error e)
    | .ok pod2 =>
      match openChannel env name with
      | (trO, .error e) => (tr1 ++ [.awaitRunning, .getPod] ++ trO, .error e)
      | (trO, .ok ()) =>
        match postRestartPhase env name pod2 with
        | (trP, r) => (tr1 ++ [.awaitRunning, .getPod] ++ trO ++ trP, r)

/-- `PodApi::upgrade` (`src/upgrade.rs` lines 34-133): the per-member
procedure, returning the trace of effects and the outcome. -/
def podUpgrade (env : UpgradeEnv) : List UEvent × Except String Unit :=
  match env.pod.metadata.name with
  | none => ([], .error "pod does not have a name")
  | some name =>
    match is_current env.pod env.target with
    | .error e => ([], .error e)
    | .ok cur =>
      match (if !cur || env.force_upgrade then deletePhase env name else ([], .ok ())) with
      | (tr1, .error e) => (tr1, .error e)
      | (tr1, .ok ()) => podUpgradeTail env name tr1

/-! ## Cluster upgrade driver (`src/upgrade.rs`, `StatefulSetApi::upgrade`) -/

/-- The inputs of one driver run: the statefulset, the standby and
active member lists obtained by label selector, and an oracle giving
the outcome of the per-member procedure on each member. -/
structure DriverEnv where
  sts : StatefulSet
  standby : List Pod
  active : List Pod
  memberOutcome : Pod → Except String Unit

/-- The driver's per-list loop: invoke the per-member procedure on each
member in list order, aborting on the first error. Returns the members
invoked, in order. -/
def upgradeMembers (f : Pod → Except String Unit) : List Pod → List Pod × Except String Unit
  | [] => ([], .ok ())
  | p :: ps =>
    match f p with
    | .error e => ([p], .error e)
    | .ok () =>
      let (tr, r) := upgradeMembers f ps
      (p :: tr, r)

/-- `StatefulSetApi::upgrade` (`src/upgrade.rs` lines 162-220): derive
the target from the statefulset, return success if the standby or the
active list is empty, otherwise upgrade all standbys then all actives,
aborting on the first error. -/
def stsUpgrade (env : DriverEnv) : List Pod × Except String Unit :=
  match VaultVersion.tryFromStatefulSet env.sts with
  | .error e => ([], .error e)
  | .ok _target =>
    if env.standby.isEmpty then ([], .ok ())
    else if env.active.isEmpty then ([], .ok ())
    else
      match upgradeMembers env.memberOutcome env.standby with
      | (tr, .error e) => (tr, .error e)
      | (tr, .ok ()) =>
        match upgradeMembers env.memberOutcome env.active with
        | (tr2, r) => (tr ++ tr2, r)

/-! ## Spec-side reference definitions (for refinement comparisons) -/

/-- Follows the spec's words for version extraction: the Version is
"the substring after the first `:` separator" of the image reference
(none when the reference contains no `:`). Compared against
`imageTag`, which embeds the source. -/
def specTagAfterFirstColon : List Char → Option (List Char)
  | [] => none
  | c :: cs => if c = ':' then some cs else specTagAfterFirstColon cs

/-- Follows the spec's words for the unseal trace: for each key in
order, one readiness await followed by one unseal request carrying
that key. -/
def specUnsealTrace (keys : List String) : List ChanEvent :=
  keys.flatMap (fun k => [.ready, .send (unseal_request k)])

/-! ## Concrete fixtures used by witnesses and counterexamples -/

/-- A pod whose image reference carries a registry port, hence two `:`
separators. -/
def c4Pod : Pod :=
  { metadata := { name := some "vault-0", labels := some [] }
    spec := some { containers := [{ name := "vault", image := some "registry:5000/vault:1.13.0" }] }
    status := none }

/-- A pod carrying unrecognized values in its seal and leadership
labels. -/
def c5Pod : Pod :=
  { metadata := { name := some "vault-0",
                  labels := some [("vault-sealed", "maybe"), ("vault-active", "maybe")] }
    spec := none
    status := none }

/-- A pod exposing neither the `vault-sealed` nor the `vault-active`
label. -/
def c9Pod : Pod :=
  { metadata := { name := some "vault-0", labels := some [("app.kubernetes.io/name", "vault")] }
    spec := none
    status := none }

/-- An empty raft configuration (no servers). -/
def c8Config : RaftConfiguration :=
  { request_id := "", lease_id := "", renewable := false, lease_duration := 0
    data := { config := { servers := [], index := 0 } } }

/-- A raft configuration with one leader and one non-voter. -/
def c8Config2 : RaftConfiguration :=
  { request_id := "", lease_id := "", renewable := false, lease_duration := 0
    data := { config := { servers :=
      [ { node_id := "n0", address := "vault-0:8201", leader := true,
          protocol_version := "3", voter := true }
      , { node_id := "n1", address := "vault-1:8201", leader := false,
          protocol_version := "3", voter := false } ], index := 0 } } }

/-- An outdated standby pod (image tag 1.16.0, target 1.17.0). -/
def outdatedPod : Pod :=
  { metadata := { name := some "vault-1", labels := some [("vault-active", "false")] }
    spec := some { containers := [{ name := "vault", image := some "vault:1.16.0" }] }
    status := none }

/-- A standby pod already at the target version 1.17.0 and unsealed. -/
def currentPod : Pod :=
  { metadata := { name := some "vault-1",
                  labels := some [("vault-active", "false"), ("vault-sealed", "false")] }
    spec := some { containers := [{ name := "vault", image := some "vault:1.17.0" }] }
    status := none }

/-- Per-member environment in which the pod is outdated, every effect
succeeds, and the refetched replacement pod is still at the old
version (the workload template was not updated). -/
def envC1 : UpgradeEnv :=
  { pod := outdatedPod
    target := ⟨"1.17.0"⟩
    token := "token"
    should_unseal := true
    force_upgrade := false
    keys := ["key1"]
    stepDownOpen := .ok ()
    stepDownResp := ⟨204, ""⟩
    standbyWait := .ok ()
    deleteRes := .ok ()
    runningWait := .ok ()
    getPodRes := .ok outdatedPod
    openOk := fun _ => true
    sealInitWait := .ok ()
    unsealResps := [⟨200, ""⟩]
    unsealedWait := .ok ()
    readyWait := .ok ()
  }

/-- Per-member environment of a successful run on a pod already at the
target version. -/
def envC1W : UpgradeEnv :=
  { envC1 with pod := currentPod, getPodRes := .ok currentPod }

/-- The trace of `podUpgrade envC1W`. -/
def envC1WTrace : List UEvent :=
  [.awaitRunning, .getPod, .openAttempt 0,
   .awaitSealStatusInitialized, .awaitUnsealed, .awaitReady]

/-- Per-member environment in which the first five channel-open
attempts fail and the sixth succeeds. -/
def envC6 : UpgradeEnv :=
  { envC1W with openOk := fun i => i == 5 }

/-- The pod template of `c2Sts`. -/
def c2StsTemplate : PodSpec :=
  { containers := [{ name := "vault", image := some "vault:1.17.0" }] }

/-- A statefulset whose template image is `vault:1.17.0`. -/
def c2Sts : StatefulSet :=
  { metadata := { name := some "vault", labels := none }
    spec := some { template := { spec := some c2StsTemplate } } }

def c2Standby : Pod :=
  { metadata := { name := some "vault-1", labels := some [("vault-active", "false")] }
    spec := none
    status := none }

def c2Active : Pod :=
  { metadata := { name := some "vault-0", labels := some [("vault-active", "true")] }
    spec := none
    status := none }

/-- Driver environment in which the standby upgrade succeeds and the
active upgrade fails. -/
def envC2 : DriverEnv :=
  { sts := c2Sts
    standby := [c2Standby]
    active := [c2Active]
    memberOutcome := fun p => if p = c2Standby then .ok () else .error "member upgrade failed" }

/-! # Theorems -/

/-! ## Properties of `rustSplit` -/

theorem rustSplit_no_sep (sep : Char) (s : List Char) (h : sep ∉ s) :
    rustSplit sep s = [s] := by
  induction s with
  | nil => rfl
  | cons c cs ih =>
    have h1 : ¬c = sep := by rintro rfl; exact h (List.mem_cons_self _ _)
    have h2 : sep ∉ cs := fun hm => h (List.mem_cons_of_mem c hm)
    simp [rustSplit, h1, ih h2]

theorem rustSplit_append (sep : Char) (a b : List Char) (ha : sep ∉ a) :
    rustSplit sep (a ++ sep :: b) = a :: rustSplit sep b := by
  induction a with
  | nil => simp [rustSplit]
  | cons c cs ih =>
    have h1 : ¬c = sep := by rintro rfl; exact ha (List.mem_cons_self _ _)
    have h2 : sep ∉ cs := fun hm => ha (List.mem_cons_of_mem c hm)
    simp [rustSplit, if_neg h1, ih h2]

/-! ## C4 -/

/-- C4 (corrected): version extraction takes the second
colon-separated field of the image reference, not the whole substring
after the first `:`. For every image of the form `repo/name:tag`
where neither part contains a `:`, the extracted Version equals `tag`
(also lifted to pods and statefulsets), and extraction fails with the
missing-tag error when the reference contains no `:`. -/
theorem C4_version_extraction :
    (∀ r t : List Char, ':' ∉ r → ':' ∉ t →
      imageTag ⟨r ++ ':' :: t⟩ = .ok ⟨t⟩) ∧
    (∀ s : List Char, ':' ∉ s →
      imageTag ⟨s⟩ = .error "image does not have a tag") ∧
    (∀ (pod : Pod) (spec : PodSpec) (cont : Container) (r t : List Char),
      pod.spec = some spec → spec.containers.head? = some cont →
      cont.image = some ⟨r ++ ':' :: t⟩ → ':' ∉ r → ':' ∉ t →
      VaultVersion.tryFromPod pod = .ok ⟨⟨t⟩⟩) ∧
    (∀ (sts : StatefulSet) (ssp : StatefulSetSpec) (spec : PodSpec) (cont : Container)
      (r t : List Char),
      sts.spec = some ssp → ssp.template.spec = some spec → spec.containers.head? = some cont →
      cont.image = some ⟨r ++ ':' :: t⟩ → ':' ∉ r → ':' ∉ t →
      VaultVersion.tryFromStatefulSet sts = .ok ⟨⟨t⟩⟩) := by
  have htag : ∀ r t : List Char, ':' ∉ r → ':' ∉ t →
      imageTag ⟨r ++ ':' :: t⟩ = .ok ⟨t⟩ := by
    intro r t hr ht
    simp [imageTag, rustSplit_append ':' r t hr, rustSplit_no_sep ':' t ht]
  have hnone : ∀ s : List Char, ':' ∉ s →
      imageTag ⟨s⟩ = .error "image does not have a tag" := by
    intro s hs
    simp [imageTag, rustSplit_no_sep ':' s hs]
  refine ⟨htag, hnone, ?_, ?_⟩
  · intro pod spec cont r t h1 h2 h3 hr ht
    simp [VaultVersion.tryFromPod, h1, h2, h3, htag r t hr ht, Except.map]
  · intro sts ssp spec cont r t h1 h2 h3 h4 hr ht
    simp [VaultVersion.tryFromStatefulSet, h1, h2, h3, h4, htag r t hr ht, Except.map]

/-- Witness for C4: extracting from `vault/vault:1.13.0` yields
`1.13.0`, and a reference without `:` fails. -/
theorem C4_version_extraction_witness :
    imageTag ⟨"vault/vault".data ++ ':' :: "1.13.0".data⟩ = .ok ⟨"1.13.0".data⟩ ∧
    imageTag ⟨"vault".data⟩ = .error "image does not have a tag" :=
  ⟨C4_version_extraction.1 "vault/vault".data "1.13.0".data (by decide) (by decide),
   C4_version_extraction.2.1 "vault".data (by decide)⟩

/-- C4 counterexample: on the image reference
`registry:5000/vault:1.13.0` the code extracts `5000/vault`, while the
substring after the first `:` separator is `5000/vault:1.13.0`; the
two differ, so extraction does not yield the substring after the first
`:`. -/
theorem C4_counterexample :
    VaultVersion.tryFromPod c4Pod = .ok ⟨"5000/vault"⟩ ∧
    specTagAfterFirstColon "registry:5000/vault:1.13.0".data = some "5000/vault:1.13.0".data ∧
    ("5000/vault" : String) ≠ "5000/vault:1.13.0" := by
  refine ⟨by decide, by decide, by decide⟩

/-! ## C5 -/

/-- C5 (corrected): when the label mapping is absent, `is_sealed` and
`is_active` fail with a labeling error; and when the required key is
present with a value that is neither `"true"` nor `"false"`, they
also fail with a labeling error (they do not return `false`). -/
theorem C5_label_predicate_errors :
    (∀ (pod : Pod) (flavor : String), pod.metadata.labels = none →
      is_sealed pod flavor = .error "pod does not have labels" ∧
      is_active pod flavor = .error "pod does not have labels") ∧
    (∀ (pod : Pod) (flavor : String) (ls : Labels) (v : String),
      pod.metadata.labels = some ls →
      labelsGet ls (flavor ++ "-sealed") = some v → v ≠ "true" → v ≠ "false" →
      is_sealed pod flavor = .error ("pod does not have a " ++ flavor ++ "-sealed label")) ∧
    (∀ (pod : Pod) (flavor : String) (ls : Labels) (v : String),
      pod.metadata.labels = some ls →
      labelsGet ls (flavor ++ "-active") = some v → v ≠ "true" → v ≠ "false" →
      is_active pod flavor = .error ("pod does not have a " ++ flavor ++ "-active label")) := by
  refine ⟨?_, ?_, ?_⟩
  · intro pod flavor h
    exact ⟨by simp [is_sealed, h], by simp [is_active, h]⟩
  · intro pod flavor ls v h1 h2 h3 h4
    simp [is_sealed, h1, h2, h3, h4]
  · intro pod flavor ls v h1 h2 h3 h4
    simp [is_active, h1, h2, h3, h4]

/-- Witness for C5: the fixture pod with `vault-sealed = maybe` and
`vault-active = maybe` makes both predicates fail. -/
theorem C5_label_predicate_errors_witness :
    is_sealed c5Pod "vault" = .error ("pod does not have a " ++ "vault" ++ "-sealed label") ∧
    is_active c5Pod "vault" = .error ("pod does not have a " ++ "vault" ++ "-active label") :=
  ⟨C5_label_predicate_errors.2.1 c5Pod "vault" [("vault-sealed", "maybe"), ("vault-active", "maybe")]
      "maybe" rfl (by decide) (by decide) (by decide),
   C5_label_predicate_errors.2.2 c5Pod "vault" [("vault-sealed", "maybe"), ("vault-active", "maybe")]
      "maybe" rfl (by decide) (by decide) (by decide)⟩

/-- C5 counterexample: a pod whose `vault-sealed` and `vault-active`
labels are present with the unrecognized value `maybe` makes both
predicates fail with a labeling error rather than return `false`. -/
theorem C5_counterexample :
    is_sealed c5Pod "vault" ≠ .ok false ∧
    is_active c5Pod "vault" ≠ .ok false ∧
    is_sealed c5Pod "vault" = .error "pod does not have a vault-sealed label" ∧
    is_active c5Pod "vault" = .error "pod does not have a vault-active label" := by
  refine ⟨by decide, by decide, by decide, by decide⟩

/-! ## C7 -/

/-- C7 (confirmed): the step-down operation sends exactly one PUT
request to `/v1/sys/step-down` carrying the token header, succeeds iff
the response status is exactly 204, and on any other status fails
with an error carrying the response body. -/
theorem C7_step_down_semantics (token : String) (resp : HttpResp) :
    (stepDown token resp).1 = [step_down_request token] ∧
    step_down_request token =
      { method := .PUT
        uri := "/v1/sys/step-down"
        headers := [("Host", "127.0.0.1"), ("x-Vault-Request", "true"), ("X-Vault-Token", token)]
        body := .empty } ∧
    ((stepDown token resp).2 = .ok () ↔ resp.status = 204) ∧
    (resp.status ≠ 204 → (stepDown token resp).2 = .error ("stepping-down: " ++ resp.body)) := by
  refine ⟨rfl, rfl, ?_, ?_⟩
  · constructor
    · intro h
      by_contra hne
      simp [stepDown, hne] at h
    · intro h
      simp [stepDown, h]
  · intro h
    simp [stepDown, h]

/-- Witness for C7: a 200 response (the status the claim singles out)
is rejected with the body in the error. -/
theorem C7_step_down_semantics_witness :
    (stepDown "token" ⟨200, "unexpected"⟩).2 = .error ("stepping-down: " ++ "unexpected") :=
  (C7_step_down_semantics "token" ⟨200, "unexpected"⟩).2.2.2 (by decide)

/-! ## C8 -/

/-- C8 (confirmed): `any-leader` holds iff some server has
`leader = true`; `all-voters` holds iff every server has
`voter = true` (vacuously on an empty server list); both are false on
an absent configuration. -/
theorem C8_raft_predicates :
    raft_configuration_any_leader none = false ∧
    raft_configuration_all_voters none = false ∧
    (∀ c : RaftConfiguration,
      (raft_configuration_any_leader (some c) = true ↔
        ∃ s ∈ c.data.config.servers, s.leader = true) ∧
      (raft_configuration_all_voters (some c) = true ↔
        ∀ s ∈ c.data.config.servers, s.voter = true) ∧
      (c.data.config.servers = [] → raft_configuration_all_voters (some c) = true)) := by
  refine ⟨rfl, rfl, fun c => ⟨?_, ?_, ?_⟩⟩
  · simp [raft_configuration_any_leader, List.any_eq_true]
  · simp [raft_configuration_all_voters, List.all_eq_true]
  · intro h
    simp [raft_configuration_all_voters, h]

/-- Witness for C8: the empty configuration satisfies `all-voters`
vacuously and a configuration with a leading server satisfies
`any-leader`. -/
theorem C8_raft_predicates_witness :
    raft_configuration_all_voters (some c8Config) = true ∧
    raft_configuration_any_leader (some c8Config2) = true ∧
    raft_configuration_all_voters (some c8Config2) = false :=
  ⟨(C8_raft_predicates.2.2 c8Config).2.2 rfl,
   ((C8_raft_predicates.2.2 c8Config2).1).mpr (by decide),
   by decide⟩

/-! ## C9 -/

/-- C9 (confirmed): the watch conditions treat label absence as the
negative state: a pod lacking the `vault-sealed` label (or an absent
pod) counts as unsealed, and a pod lacking the `vault-active` label
(or an absent pod) counts as standby; no labeling error is possible
since the conditions are total boolean functions. -/
theorem C9_absent_label_negative :
    is_pod_unsealed none = true ∧
    is_pod_standby none = true ∧
    (∀ pod : Pod, pod.metadata.labels = none →
      is_pod_unsealed (some pod) = true ∧ is_pod_standby (some pod) = true) ∧
    (∀ (pod : Pod) (ls : Labels), pod.metadata.labels = some ls →
      labelsGet ls "vault-sealed" = none → is_pod_unsealed (some pod) = true) ∧
    (∀ (pod : Pod) (ls : Labels), pod.metadata.labels = some ls →
      labelsGet ls "vault-active" = none → is_pod_standby (some pod) = true) := by
  refine ⟨rfl, rfl, ?_, ?_, ?_⟩
  · intro pod h
    exact ⟨by simp [is_pod_unsealed, is_pod_sealed, h], by simp [is_pod_standby, is_pod_active, h]⟩
  · intro pod ls h1 h2
    simp [is_pod_unsealed, is_pod_sealed, h1, h2]
  · intro pod ls h1 h2
    simp [is_pod_standby, is_pod_active, h1, h2]

/-- Witness for C9: the fixture pod carrying only the app label is
both unsealed and standby for the watch conditions. -/
theorem C9_absent_label_negative_witness :
    is_pod_unsealed (some c9Pod) = true ∧ is_pod_standby (some c9Pod) = true :=
  ⟨C9_absent_label_negative.2.2.2.1 c9Pod [("app.kubernetes.io/name", "vault")] rfl (by decide),
   C9_absent_label_negative.2.2.2.2 c9Pod [("app.kubernetes.io/name", "vault")] rfl (by decide)⟩

/-! ## C10 -/

/-- C10 (confirmed): flavor parsing round-trips with flavor display,
accepts any capitalization of `vault` and `openbao`, and rejects every
other input with an invalid-flavor error. -/
theorem C10_flavor_round_trip :
    Flavor.fromStr (Flavor.render .Vault) = .ok .Vault ∧
    Flavor.fromStr (Flavor.render .OpenBao) = .ok .OpenBao ∧
    (∀ s : String, rustToLowercase s = "vault" → Flavor.fromStr s = .ok .Vault) ∧
    (∀ s : String, rustToLowercase s = "openbao" → Flavor.fromStr s = .ok .OpenBao) ∧
    (∀ s : String, rustToLowercase s ≠ "vault" → rustToLowercase s ≠ "openbao" →
      Flavor.fromStr s = .error ("invalid flavor: " ++ s)) := by
  refine ⟨by decide, by decide, ?_, ?_, ?_⟩
  · intro s h
    unfold Flavor.fromStr
    rw [h, if_neg (by decide : ¬("vault" : String) = "openbao"), if_pos rfl]
  · intro s h
    unfold Flavor.fromStr
    rw [h, if_pos rfl]
  · intro s h1 h2
    unfold Flavor.fromStr
    rw [if_neg h2, if_neg h1]

/-- Witness for C10: mixed-capitalization inputs parse and a stray
input is rejected. -/
theorem C10_flavor_round_trip_witness :
    Flavor.fromStr "VaUlT" = .ok .Vault ∧
    Flavor.fromStr "OpenBao" = .ok .OpenBao ∧
    Flavor.fromStr "consul" = .error ("invalid flavor: " ++ "consul") :=
  ⟨C10_flavor_round_trip.2.2.1 "VaUlT" (by decide),
   C10_flavor_round_trip.2.2.2.1 "OpenBao" (by decide),
   C10_flavor_round_trip.2.2.2.2 "consul" (by decide) (by decide)⟩

/-! ## Properties of the unseal loop -/

theorem unsealGo_all_ok (keys : List String) (resps : List HttpResp)
    (hlen : keys.length ≤ resps.length)
    (hall : ∀ r ∈ resps.take keys.length, goodUnsealStatus r = true) :
    unsealGo keys resps = (specUnsealTrace keys, .ok ()) := by
  induction keys generalizing resps with
  | nil => simp [unsealGo, specUnsealTrace]
  | cons k ks ih =>
    cases resps with
    | nil => simp at hlen
    | cons r rest =>
      have hr : goodUnsealStatus r = true := hall r (by simp)
      have hrec := ih rest (by simpa using hlen) (fun x hx => hall x (by simp [hx]))
      simp [unsealGo, hr, hrec, specUnsealTrace]

theorem unsealGo_first_err (pre : List HttpResp) (bad : HttpResp) (rest : List HttpResp)
    (keys : List String) (hk : pre.length < keys.length)
    (hpre : ∀ r ∈ pre, goodUnsealStatus r = true)
    (hbad : goodUnsealStatus bad = false) :
    unsealGo keys (pre ++ bad :: rest) =
      (specUnsealTrace (keys.take (pre.length + 1)),
        .error ("unsealing: " ++ bad.body)) := by
  induction pre generalizing keys with
  | nil =>
    cases keys with
    | nil => simp at hk
    | cons k ks => simp [unsealGo, hbad, specUnsealTrace]
  | cons r pre ih =>
    cases keys with
    | nil => simp at hk
    | cons k ks =>
      have hr := hpre r (by simp)
      have hrec := ih ks (by simpa using hk) (fun x hx => hpre x (by simp [hx]))
      simp [unsealGo, hr, hrec, specUnsealTrace]

/-! ## C3 -/

/-- C3 (confirmed): for a non-empty key sequence the unseal operation
submits exactly one unseal request per key, in order, awaiting channel
readiness before each send; it succeeds iff every consumed response
status is 2xx or 3xx, aborts at the first other response with an
unseal error carrying that response's body without submitting further
keys, and an empty key sequence fails immediately with
`no keys provided` without sending anything. -/
theorem C3_ordered_unseal :
    (∀ resps, unsealAll [] resps = ([], .error "no keys provided")) ∧
    (∀ keys resps, keys ≠ [] → keys.length ≤ resps.length →
      (∀ r ∈ resps.take keys.length, goodUnsealStatus r = true) →
      unsealAll keys resps = (specUnsealTrace keys, .ok ())) ∧
    (∀ keys pre bad rest, keys ≠ [] → pre.length < keys.length →
      (∀ r ∈ pre, goodUnsealStatus r = true) → goodUnsealStatus bad = false →
      unsealAll keys (pre ++ bad :: rest) =
        (specUnsealTrace (keys.take (pre.length + 1)),
          .error ("unsealing: " ++ bad.body))) := by
  refine ⟨fun resps => rfl, ?_, ?_⟩
  · intro keys resps hne hlen hall
    cases keys with
    | nil => exact absurd rfl hne
    | cons k ks => exact unsealGo_all_ok (k :: ks) resps hlen hall
  · intro keys pre bad rest hne hk hpre hbad
    cases keys with
    | nil => exact absurd rfl hne
    | cons k ks => exact unsealGo_first_err pre bad rest (k :: ks) hk hpre hbad

/-- Witness for C3: three keys against a good, then a bad response:
the first two keys are sent (each preceded by a readiness await), the
third is not, and the error carries the bad response's body. -/
theorem C3_ordered_unseal_witness :
    unsealAll ["key1", "key2", "key3"] [⟨200, "a"⟩, ⟨429, "rate limited"⟩, ⟨200, "c"⟩] =
      ([.ready, .send (unseal_request "key1"), .ready, .send (unseal_request "key2")],
        .error ("unsealing: " ++ "rate limited")) := by
  have h := C3_ordered_unseal.2.2 ["key1", "key2", "key3"]
    [⟨200, "a"⟩] ⟨429, "rate limited"⟩ [⟨200, "c"⟩]
    (by decide) (by decide) (by decide) (by decide)
  simpa [specUnsealTrace] using h

/-! ## Properties of the driver loop -/

theorem upgradeMembers_all_ok (f : Pod → Except String Unit) (l : List Pod)
    (h : ∀ p ∈ l, f p = .ok ()) : upgradeMembers f l = (l, .ok ()) := by
  induction l with
  | nil => rfl
  | cons p ps ih =>
    have hp := h p (by simp)
    simp [upgradeMembers, hp, ih (fun q hq => h q (by simp [hq]))]

theorem upgradeMembers_first_err (f : Pod → Except String Unit) (pre : List Pod) (p : Pod)
    (post : List Pod) (e : String) (hpre : ∀ q ∈ pre, f q = .ok ()) (hp : f p = .error e) :
    upgradeMembers f (pre ++ p :: post) = (pre ++ [p], .error e) := by
  induction pre with
  | nil => simp [upgradeMembers, hp]
  | cons q qs ih =>
    have hq := hpre q (by simp)
    simp [upgradeMembers, hq, ih (fun x hx => hpre x (by simp [hx]))]

theorem stsUpgrade_nonempty (env : DriverEnv) (t : VaultVersion)
    (ht : VaultVersion.tryFromStatefulSet env.sts = .ok t)
    (hs : env.standby ≠ []) (ha : env.active ≠ []) :
    stsUpgrade env =
      (match upgradeMembers env.memberOutcome env.standby with
       | (tr, .error e) => (tr, .error e)
       | (tr, .ok ()) =>
         ((tr ++ (upgradeMembers env.memberOutcome env.active).1),
           (upgradeMembers env.memberOutcome env.active).2)) := by
  have hs' : env.standby.isEmpty = false := by
    cases hE : env.standby with
    | nil => exact absurd hE hs
    | cons a l => rfl
  have ha' : env.active.isEmpty = false := by
    cases hE : env.active with
    | nil => exact absurd hE ha
    | cons a l => rfl
  unfold stsUpgrade
  rw [ht]
  simp only [hs', ha', Bool.false_eq_true, if_false]

theorem upgradeMembers_append (f : Pod → Except String Unit) (l1 l2 : List Pod) :
    upgradeMembers f (l1 ++ l2) =
      (match upgradeMembers f l1 with
       | (tr, .error e) => (tr, .error e)
       | (tr, .ok ()) => ((tr ++ (upgradeMembers f l2).1), (upgradeMembers f l2).2)) := by
  induction l1 with
  | nil => simp [upgradeMembers]
  | cons p ps ih =>
    cases hf : f p with
    | error e => simp [upgradeMembers, hf]
    | ok u =>
      cases u
      rcases h1 : upgradeMembers f ps with ⟨tr1, r1⟩
      have ih' := ih
      rw [h1] at ih'
      cases r1 with
      | error e => simp [upgradeMembers, hf, h1, ih']
      | ok v =>
        cases v
        simp [upgradeMembers, hf, h1, ih']

/-! ## C2 -/

/-- C2 (confirmed): the driver returns success without invoking the
per-member procedure when the standby or the active list is empty;
otherwise it invokes the procedure on every standby in list order,
then on every active in list order, and the first per-member error
aborts the driver with that error, invoking no further members. -/
theorem C2_cluster_driver (env : DriverEnv) (t : VaultVersion)
    (ht : VaultVersion.tryFromStatefulSet env.sts = .ok t) :
    (env.standby = [] → stsUpgrade env = ([], .ok ())) ∧
    (env.active = [] → stsUpgrade env = ([], .ok ())) ∧
    (env.standby ≠ [] → env.active ≠ [] →
      ((∀ p ∈ env.standby ++ env.active, env.memberOutcome p = .ok ()) →
        stsUpgrade env = (env.standby ++ env.active, .ok ())) ∧
      (∀ pre p post e, env.standby ++ env.active = pre ++ p :: post →
        (∀ q ∈ pre, env.memberOutcome q = .ok ()) →
        env.memberOutcome p = .error e →
        stsUpgrade env = (pre ++ [p], .error e))) := by
  refine ⟨?_, ?_, ?_⟩
  · intro h
    unfold stsUpgrade
    rw [ht]
    simp [h]
  · intro h
    unfold stsUpgrade
    rw [ht]
    by_cases hs : env.standby.isEmpty = true <;> simp [hs, h]
  · intro hs ha
    have heq := stsUpgrade_nonempty env t ht hs ha
    have hsplit : ∀ l : List Pod,
        upgradeMembers env.memberOutcome l =
          (match upgradeMembers env.memberOutcome env.standby with
           | (tr, .error e) => (tr, .error e)
           | (tr, .ok ()) =>
             ((tr ++ (upgradeMembers env.memberOutcome env.active).1),
               (upgradeMembers env.memberOutcome env.active).2)) →
        stsUpgrade env = upgradeMembers env.memberOutcome l := by
      intro l hl
      rw [heq, ← hl]
    have hfull : stsUpgrade env = upgradeMembers env.memberOutcome (env.standby ++ env.active) :=
      hsplit _ (upgradeMembers_append env.memberOutcome env.standby env.active)
    constructor
    · intro hall
      rw [hfull]
      exact upgradeMembers_all_ok _ _ hall
    · intro pre p post e hdec hpre hp
      rw [hfull, hdec]
      exact upgradeMembers_first_err _ pre p post e hpre hp

/-- Witness for C2: with one standby succeeding and the active member
failing, the driver invokes both in order and aborts with the active
member's error. -/
theorem C2_cluster_driver_witness :
    stsUpgrade envC2 = ([c2Standby] ++ [c2Active], .error "member upgrade failed") :=
  ((C2_cluster_driver envC2 ⟨"1.17.0"⟩ (by decide)).2.2 (by decide) (by decide)).2
    [c2Standby] c2Active [] "member upgrade failed" (by decide) (by decide) (by decide)

/-! ## Properties of the bounded retry -/

theorem retryRun_fst_le (outcome : Nat → Except String Unit) (d i : Nat) :
    (retryRun outcome i d).1 ≤ i + d + 1 := by
  induction d generalizing i with
  | zero =>
    rw [retryRun]
    cases h : outcome i with
    | error e => simp
    | ok u => cases u; simp
  | succ d ih =>
    rw [retryRun]
    cases h : outcome i with
    | error e =>
      have h2 := ih (i + 1)
      dsimp only
      omega
    | ok u =>
      cases u
      dsimp only
      omega

theorem retryRun_all_fail (outcome : Nat → Except String Unit) (e : String)
    (d i : Nat) (h : ∀ j, i ≤ j → j ≤ i + d → outcome j = .error e) :
    retryRun outcome i d = (i + d + 1, .error e) := by
  induction d generalizing i with
  | zero =>
    have h0 : outcome i = .error e := h i le_rfl (by omega)
    rw [retryRun, h0]
  | succ d ih =>
    have h0 : outcome i = .error e := h i le_rfl (by omega)
    have hrec := ih (i + 1) (fun j hj1 hj2 => h j (by omega) (by omega))
    rw [retryRun, h0]
    dsimp only
    rw [hrec]
    have harith : i + 1 + d + 1 = i + (d + 1) + 1 := by omega
    rw [harith]

/-! ## C6 -/

/-- C6 (corrected): the channel re-open inside the per-member
procedure runs under the bounded retry schedule built from
`ExponentialBackoff::from_millis(50)` with jitter truncated to five
delays, so it makes at most six attempts in total (one initial attempt
plus five retries, not five attempts); when every attempt fails it
returns an error naming the member; and when some attempt within the
schedule succeeds it returns success. -/
theorem C6_bounded_channel_retry (env : UpgradeEnv) (name : String) :
    (openChannel env name).1.length ≤ 6 ∧
    ((∀ i, i ≤ 5 → env.openOk i = false) →
      openChannel env name =
        ((List.range 6).map UEvent.openAttempt,
          .error ("attempting to forward http requests to " ++ name ++ ": "
            ++ "channel open failed"))) ∧
    exponentialBackoffMillis 50 0 = 50 := by
  refine ⟨?_, ?_, rfl⟩
  · have hle := retryRun_fst_le
      (fun i => if env.openOk i then .ok () else .error "channel open failed") 5 0
    rcases hR : retryRun
      (fun i => if env.openOk i then .ok () else .error "channel open failed") 0 5 with ⟨n, r⟩
    rw [hR] at hle
    cases r with
    | error e => simp [openChannel, hR]; omega
    | ok u => cases u; simp [openChannel, hR]; omega
  · intro hfail
    have hrun := retryRun_all_fail
      (fun i => if env.openOk i then .ok () else .error "channel open failed")
      "channel open failed" 5 0
      (fun j hj1 hj2 => by simp [hfail j (by omega)])
    simp [openChannel, hrun]

/-- Witness for C6: with every open attempt failing, the procedure's
channel phase makes six attempts and reports the retry-exhausted error
naming the member. -/
theorem C6_bounded_channel_retry_witness :
    openChannel { envC1 with openOk := fun _ => false } "vault-1" =
      ((List.range 6).map UEvent.openAttempt,
        .error ("attempting to forward http requests to " ++ "vault-1" ++ ": "
          ++ "channel open failed")) :=
  (C6_bounded_channel_retry { envC1 with openOk := fun _ => false } "vault-1").2.1
    (fun _ _ => rfl)

/-- C6 counterexample: a per-member run in which the first five
channel-open attempts fail and the sixth succeeds: the procedure still
succeeds, and its trace contains six open attempts — so the open is
not limited to five attempts in total. -/
theorem C6_counterexample :
    (podUpgrade envC6).2 = .ok () ∧
    ((podUpgrade envC6).1.countP
      (fun ev => match ev with | .openAttempt _ => true | _ => false)) = 6 := by
  constructor
  · decide
  · decide

/-! ## Properties of the per-member procedure -/

theorem postRestart_ok_mem (env : UpgradeEnv) (name : String) (pod2 : Pod)
    (tr : List UEvent) (h : postRestartPhase env name pod2 = (tr, .ok ())) :
    UEvent.awaitSealStatusInitialized ∈ tr ∧
    (is_current pod2 env.target = .ok true →
      UEvent.awaitUnsealed ∈ tr ∧ UEvent.awaitReady ∈ tr) := by
  rcases hsw : env.sealInitWait with e | u
  · simp [postRestartPhase, hsw] at h
  · cases u
    rcases hc : is_current pod2 env.target with e | cur2
    · simp [postRestartPhase, hsw, hc] at h
    · cases cur2 with
      | false =>
        simp [postRestartPhase, hsw, hc] at h
        subst h
        refine ⟨by simp, ?_⟩
        intro hct
        simp at hct
      | true =>
        rcases hs : is_sealed pod2 "vault" with e | sealedNow
        · simp [postRestartPhase, hsw, hc, hs] at h
        · rcases hu : unsealStepRun env name sealedNow with ⟨trU, rU⟩
          cases rU with
          | error e => simp [postRestartPhase, hsw, hc, hs, hu] at h
          | ok v =>
            cases v
            rcases hw : env.unsealedWait with e | w
            · simp [postRestartPhase, hsw, hc, hs, hu, hw] at h
            · cases w
              rcases hrw : env.readyWait with e | w2
              · simp [postRestartPhase, hsw, hc, hs, hu, hw, hrw] at h
              · cases w2
                simp [postRestartPhase, hsw, hc, hs, hu, hw, hrw] at h
                subst h
                refine ⟨by simp, fun _ => ⟨by simp, by simp⟩⟩

theorem podUpgradeTail_ok_decomp (env : UpgradeEnv) (name : String) (tr1 tr : List UEvent)
    (h : podUpgradeTail env name tr1 = (tr, .ok ())) :
    ∃ pod2 pre trP, env.getPodRes = .ok pod2 ∧
      postRestartPhase env name pod2 = (trP, .ok ()) ∧ tr = pre ++ trP := by
  rcases hr : env.runningWait with e | w
  · simp [podUpgradeTail, hr] at h
  · cases w
    rcases hg : env.getPodRes with e | pod2
    · simp [podUpgradeTail, hr, hg] at h
    · rcases ho : openChannel env name with ⟨trO, rO⟩
      cases rO with
      | error e => simp [podUpgradeTail, hr, hg, ho] at h
      | ok v =>
        cases v
        rcases hp : postRestartPhase env name pod2 with ⟨trP, rP⟩
        cases rP with
        | error e => simp [podUpgradeTail, hr, hg, ho, hp] at h
        | ok v2 =>
          cases v2
          simp [podUpgradeTail, hr, hg, ho, hp] at h
          refine ⟨pod2, tr1 ++ [.awaitRunning, .getPod] ++ trO, trP, rfl, hp, ?_⟩
          rw [← h]
          simp

theorem podUpgrade_ok_decomp (env : UpgradeEnv) (tr : List UEvent)
    (h : podUpgrade env = (tr, .ok ())) :
    ∃ name pod2 pre trP, env.pod.metadata.name = some name ∧ env.getPodRes = .ok pod2 ∧
      postRestartPhase env name pod2 = (trP, .ok ()) ∧ tr = pre ++ trP := by
  rcases hn : env.pod.metadata.name with _ | name
  · simp [podUpgrade, hn] at h
  · rcases hc : is_current env.pod env.target with e | cur
    · simp [podUpgrade, hn, hc] at h
    · cases hb : (!cur || env.force_upgrade) with
      | false =>
        simp [podUpgrade, hn, hc, hb] at h
        obtain ⟨pod2, pre, trP, hg, hp, htr⟩ := podUpgradeTail_ok_decomp env name [] tr h
        exact ⟨name, pod2, pre, trP, rfl, hg, hp, htr⟩
      | true =>
        rcases hdp : deletePhase env name with ⟨tr1, r1⟩
        cases r1 with
        | error e => simp [podUpgrade, hn, hc, hb, hdp] at h
        | ok u =>
          cases u
          simp [podUpgrade, hn, hc, hb, hdp] at h
          obtain ⟨pod2, pre, trP, hg, hp, htr⟩ := podUpgradeTail_ok_decomp env name tr1 tr h
          exact ⟨name, pod2, pre, trP, rfl, hg, hp, htr⟩

/-! ## C1 -/

/-- C1 (corrected): whenever the per-member procedure returns success
it has polled seal-status until initialized (step 6); the
await-unsealed and await-ready waits (steps 8 and 9) are additionally
enforced whenever the post-restart snapshot is at the target version —
which covers the skip path, where the member is unchanged — but they
are not enforced when the refetched snapshot is not at the target
version. -/
theorem C1_success_waits (env : UpgradeEnv) (tr : List UEvent)
    (h : podUpgrade env = (tr, .ok ())) :
    UEvent.awaitSealStatusInitialized ∈ tr ∧
    (∀ pod2, env.getPodRes = .ok pod2 → is_current pod2 env.target = .ok true →
      UEvent.awaitUnsealed ∈ tr ∧ UEvent.awaitReady ∈ tr) := by
  obtain ⟨name, pod2, pre, trP, hn, hg, hp2, htr⟩ := podUpgrade_ok_decomp env tr h
  have hmem := postRestart_ok_mem env name pod2 trP hp2
  subst htr
  refine ⟨List.mem_append.mpr (Or.inr hmem.1), ?_⟩
  intro p2 hp2' hcur
  rw [hg] at hp2'
  injection hp2' with hpe
  subst hpe
  obtain ⟨hu, hr⟩ := hmem.2 hcur
  exact ⟨List.mem_append.mpr (Or.inr hu), List.mem_append.mpr (Or.inr hr)⟩

/-- Witness for C1: a successful run on a member already at the target
version performs the await-unsealed and await-ready waits. -/
theorem C1_success_waits_witness :
    UEvent.awaitUnsealed ∈ envC1WTrace ∧ UEvent.awaitReady ∈ envC1WTrace :=
  (C1_success_waits envC1W envC1WTrace (by decide)).2 currentPod (by decide) (by decide)

/-- C1 counterexample: a successful per-member run (outdated member,
every effect succeeding) whose refetched post-restart snapshot is
still at the old version: the procedure returns success yet its trace
contains neither the await-unsealed nor the await-ready wait, so
steps 8 and 9 are not enforced on every successful path regardless of
the post-restart version snapshot. -/
theorem C1_counterexample :
    (podUpgrade envC1).2 = .ok () ∧
    UEvent.awaitUnsealed ∉ (podUpgrade envC1).1 ∧
    UEvent.awaitReady ∉ (podUpgrade envC1).1 ∧
    UEvent.awaitSealStatusInitialized ∈ (podUpgrade envC1).1 := by
  refine ⟨by decide, by decide, by decide, by decide⟩

end VaultMgmt
